import Mathlib

/-!
Shallow embedding of `src/main.py` (barplexity): the three-table data model,
the request handlers, and the LLM gateway, together with theorems checking
the specification's claims about them.

Mutable state is passed explicitly: each handler takes the database and the
auth-cookie state and returns an outcome carrying the new database.  The
remote LLM call is a parameter `gem : String → Remote` mapping the prompt
sent to the outcome of the HTTP call, so that the prompt actually sent is
observable and provider failures are explicit.
-/

namespace Barplexity

/-- Row of the `user` table (src/main.py lines 22-35). -/
structure User where
  id : Nat
  name : String
  email : String
  password : String
  is_blocked : Bool
  is_banned : Bool
  is_admin : Bool
deriving Repr, DecidableEq

/-- Row of the `chat_session` table (lines 37-43). -/
structure ChatSession where
  id : Nat
  user_id : Nat
  summary : String
  timestamp : Nat
deriving Repr, DecidableEq

/-- Row of the `chat` table (lines 47-52). -/
structure Chat where
  id : Nat
  session_id : Nat
  question : String
  answer : String
  timestamp : Nat
deriving Repr, DecidableEq

/-- The relational store: the three tables, rows kept in insertion order. -/
structure DB where
  users : List User
  sessions : List ChatSession
  chats : List Chat
deriving Repr, DecidableEq

/-- The auth cookie state.  `signin` is the only writer and always sets
`session["user_id"]` and `session["user"]` together, and `logout` /
`session.clear()` removes both, so the reachable states are "empty" and
"both keys set", modelled as an `Option LoggedIn`. -/
structure LoggedIn where
  user_id : Nat
  user : String
deriving Repr, DecidableEq

/-- `User.query.get(uid)` — primary-key lookup. -/
def findUser (db : DB) (uid : Nat) : Option User :=
  db.users.find? (fun u => u.id == uid)

/-- `User.query.filter_by(email=email).first()`.  SQLite compares TEXT with
the default BINARY collation, so the match is case-sensitive, modelled by
`==` on `String`. -/
def findUserByEmail (db : DB) (email : String) : Option User :=
  db.users.find? (fun u => u.email == email)

/-- `ChatSession.query.get(sid)`. -/
def findSession (db : DB) (sid : Nat) : Option ChatSession :=
  db.sessions.find? (fun s => s.id == sid)

/-- SQLite integer primary keys autoincrement: one more than the largest id. -/
def nextUserId (db : DB) : Nat := db.users.foldl (fun m u => max m u.id) 0 + 1

/-- Fresh id for a `chat_session` row. -/
def nextSessionId (db : DB) : Nat := db.sessions.foldl (fun m s => max m s.id) 0 + 1

/-- Fresh id for a `chat` row. -/
def nextChatId (db : DB) : Nat := db.chats.foldl (fun m c => max m c.id) 0 + 1

/-- Ordering used by `order_by(Chat.timestamp.asc())`. -/
abbrev tsLe (a b : Chat) : Prop := a.timestamp ≤ b.timestamp

instance : DecidableRel tsLe := fun a b => Nat.decLe a.timestamp b.timestamp

instance : IsTotal Chat tsLe := ⟨fun a b => Nat.le_total a.timestamp b.timestamp⟩

instance : IsTrans Chat tsLe := ⟨fun _ _ _ h1 h2 => Nat.le_trans h1 h2⟩

/-- `Chat.query.filter_by(session_id=sid).order_by(Chat.timestamp.asc()).all()`. -/
def chatsAsc (db : DB) (sid : Nat) : List Chat :=
  List.insertionSort tsLe (db.chats.filter (fun c => c.session_id == sid))

/-- Outcome of the remote `generate_content` call: the response text, or the
exception message when the call raises. -/
abbrev Remote := Except String String

/-- `query_gemini_api` (lines 71-76): the raw response text on success, or
the string `"Error: <exception message>"` when the remote call raises. -/
def query_gemini_api (r : Remote) : String :=
  match r with
  | .ok t => t
  | .error e => "Error: " ++ e

/-- Targets of `redirect(url_for(...))`. -/
inductive Redirect where
  | home
  | login_page
  | admin_dashboard
  | chatbot
deriving Repr, DecidableEq

/-- Python falsiness of `request.form.get(...)`: `None` or the empty string. -/
def falsy : Option String → Bool
  | none => true
  | some s => s.isEmpty

/-- Response of `signup`: the new database, the flashed message, and the
redirect target. -/
structure SignupOutcome where
  db : DB
  flash : String
  redirect : Redirect
deriving Repr, DecidableEq

/-- `signup` (lines 87-106). -/
def signup (db : DB) (name email password : Option String) : SignupOutcome :=
  if falsy name || falsy email || falsy password then
    { db := db, flash := "All fields are required!", redirect := .home }
  else
    match findUserByEmail db (email.getD "") with
    | some _ => { db := db, flash := "Email already registered!", redirect := .login_page }
    | none =>
      let row : User :=
        { id := nextUserId db, name := name.getD "", email := email.getD "",
          password := password.getD "", is_blocked := false, is_banned := false,
          is_admin := false }
      { db := { db with users := db.users ++ [row] },
        flash := "Signup successful! Please login.", redirect := .login_page }

/-- Response of `signin`: the new auth session, the flashed message (if
any), and the redirect target. -/
structure SigninOutcome where
  sess : Option LoggedIn
  flash : Option String
  redirect : Redirect
deriving Repr, DecidableEq

/-- `signin` (lines 108-135).  A `none` email matches no row (the `email`
column is NOT NULL); comparing a stored password with a missing form field
is `False` in Python, so the password test is `password == some user.password`. -/
def signin (db : DB) (sess : Option LoggedIn) (email password : Option String) : SigninOutcome :=
  match email.bind (findUserByEmail db) with
  | none => { sess := sess, flash := some "Invalid credentials!", redirect := .login_page }
  | some user =>
    if user.is_banned then
      { sess := sess, flash := some "This email is banned. Contact admin.", redirect := .home }
    else if user.is_blocked then
      { sess := sess, flash := some "You are blocked. Contact admin.", redirect := .login_page }
    else if password == some user.password then
      { sess := some { user_id := user.id, user := user.name },
        flash := none,
        redirect := if user.is_admin then .admin_dashboard else .chatbot }
    else
      { sess := sess, flash := some "Invalid credentials!", redirect := .home }

/-- Response of `admin_dashboard`: either a redirect home with a flash, or
the rendered listing of non-admin-email users. -/
inductive DashOutcome where
  | redirectHome (flash : String)
  | renderAdmin (users : List User)
deriving Repr, DecidableEq

/-- `admin_dashboard` (lines 138-150). -/
def admin_dashboard (db : DB) (sess : Option LoggedIn) : DashOutcome :=
  match sess with
  | none => .redirectHome "Access denied!"
  | some li =>
    match findUser db li.user_id with
    | none => .redirectHome "Access denied!"
    | some user =>
      if user.is_admin then
        .renderAdmin (db.users.filter (fun u => u.email != "admin@barplexity.com"))
      else
        .redirectHome "Access denied!"

/-- Response of the mutating admin routes. -/
structure AdminOutcome where
  db : DB
  flash : Option String
  redirect : Redirect
deriving Repr, DecidableEq

/-- The per-row update performed by `block_user` (line 156). -/
def toggleBlocked (uid : Nat) (u : User) : User :=
  if u.id == uid then { u with is_blocked := !u.is_blocked } else u

/-- `block_user` (lines 152-159).  The handler never reads the auth session;
the `_sess` argument is unused, exactly as in the source. -/
def block_user (db : DB) (_sess : Option LoggedIn) (user_id : Nat) : AdminOutcome :=
  match findUser db user_id with
  | none => { db := db, flash := none, redirect := .admin_dashboard }
  | some user =>
    { db := { db with users := db.users.map (toggleBlocked user_id) },
      flash := some (user.name ++ " has been " ++
        (if !user.is_blocked then "blocked" else "unblocked") ++ "!"),
      redirect := .admin_dashboard }

/-- The per-row update performed by `user.is_banned = True` (line 165). -/
def setBanned (uid : Nat) (u : User) : User :=
  if u.id == uid then { u with is_banned := true } else u

/-- `user.is_banned = True` (line 165): the state visible between the ban
and the delete inside the single commit. -/
def banUser (db : DB) (uid : Nat) : DB :=
  { db with users := db.users.map (setBanned uid) }

/-- The ids of the `ChatSession` rows owned by `uid`. -/
def ownedSessionIds (db : DB) (uid : Nat) : List Nat :=
  (db.sessions.filter (fun s => s.user_id == uid)).map (fun s => s.id)

/-- ORM cascade `all, delete-orphan` (lines 30-43): deleting a user removes
the user row, all of the user's sessions, and all chats of those sessions. -/
def removeUserCascade (db : DB) (uid : Nat) : DB :=
  { users := db.users.filter (fun u => u.id != uid),
    sessions := db.sessions.filter (fun s => s.user_id != uid),
    chats := db.chats.filter (fun c => !((ownedSessionIds db uid).contains c.session_id)) }

/-- `delete_user` (lines 161-169).  Like `block_user`, it performs no read
of the auth session. -/
def delete_user (db : DB) (_sess : Option LoggedIn) (user_id : Nat) : AdminOutcome :=
  match findUser db user_id with
  | none => { db := db, flash := none, redirect := .admin_dashboard }
  | some user =>
    { db := removeUserCascade (banUser db user_id) user_id,
      flash := some (user.name ++ " has been deleted and banned!"),
      redirect := .admin_dashboard }

/-- HTTP method of a `/chatbot` request. -/
inductive Method where
  | get
  | post
deriving Repr, DecidableEq

/-- Prompt accumulation of lines 210-214 and 249-253. -/
def buildPrompt (previous : List Chat) (user_message : String) : String :=
  previous.foldl (fun acc c => acc ++ ("User: " ++ c.question ++ "\nBot: " ++ c.answer ++ "\n")) ""
    ++ ("User: " ++ user_message ++ "\nBot:")

/-- Response of the `/chatbot` page flow.  `fault` is an unhandled Python
exception escaping the handler; `sentPrompt` records the prompt sent to the
gateway on this request (`none` when no call was made). -/
inductive ChatbotOutcome where
  | redirectHome (db : DB) (sess : Option LoggedIn)
  | fault (db : DB)
  | page (db : DB) (selected : Nat) (messages : List Chat) (sentPrompt : Option String)
deriving Repr, DecidableEq

/-- Database carried by a `/chatbot` outcome. -/
def ChatbotOutcome.db : ChatbotOutcome → DB
  | .redirectHome d _ => d
  | .fault d => d
  | .page d _ _ _ => d

/-- Prompt sent to the gateway during a `/chatbot` request, if any. -/
def ChatbotOutcome.sent : ChatbotOutcome → Option String
  | .page _ _ _ p => p
  | _ => none

/-- Lines 206-234: the POST message handling and the final render, shared by
the existing-session and fresh-session paths of `chatbot`.  A missing
`message` field on POST puts `None` into the NOT NULL `chat.question`
column, so the commit raises — `fault`. -/
def chatbotStep (db : DB) (cs : ChatSession) (method : Method)
    (message : Option String) (now : Nat) (gem : String → Remote) : ChatbotOutcome :=
  match method with
  | .get => .page db cs.id (chatsAsc db cs.id) none
  | .post =>
    match message with
    | none => .fault db
    | some msg =>
      let prompt := buildPrompt (chatsAsc db cs.id) msg
      let bot_reply := query_gemini_api (gem prompt)
      let chat_msg : Chat :=
        { id := nextChatId db, session_id := cs.id, question := msg,
          answer := bot_reply, timestamp := now }
      let db2 := { db with chats := db.chats ++ [chat_msg] }
      let setSummary := fun (s : ChatSession) =>
        if s.id == cs.id then { s with summary := msg.take 50 } else s
      let db3 :=
        if cs.summary == "New Chat" then
          { db2 with sessions := db2.sessions.map setSummary }
        else db2
      .page db3 cs.id (chatsAsc db3 cs.id) (some prompt)

/-- `chatbot` (lines 172-234).  `now` is the wall clock read by
`db.func.now()`.  The sidebar data of lines 183-195 is display-only and not
part of the outcome.  On an unknown `session_id` the lookup yields `None`
and the later `current_session.id` dereference raises — `fault`. -/
def chatbot (db : DB) (sess : Option LoggedIn) (method : Method)
    (session_id : Option Nat) (message : Option String) (now : Nat)
    (gem : String → Remote) : ChatbotOutcome :=
  match sess with
  | none => .redirectHome db none
  | some li =>
    match findUser db li.user_id with
    | none => .redirectHome db none
    | some user =>
      match session_id with
      | some sid =>
        match findSession db sid with
        | none => .fault db
        | some cs => chatbotStep db cs method message now gem
      | none =>
        let cs : ChatSession :=
          { id := nextSessionId db, user_id := user.id, summary := "New Chat",
            timestamp := now }
        chatbotStep { db with sessions := db.sessions ++ [cs] } cs method message now gem

/-- Response of the `/chatbot-api` JSON flow: always HTTP 200 with a
`{"reply": ...}` body, except the unhandled NOT NULL fault. -/
inductive ApiOutcome where
  | reply (db : DB) (text : String) (sentPrompt : Option String)
  | fault (db : DB)
deriving Repr, DecidableEq

/-- Database carried by a `/chatbot-api` outcome. -/
def ApiOutcome.db : ApiOutcome → DB
  | .reply d _ _ => d
  | .fault d => d

/-- Prompt sent to the gateway during a `/chatbot-api` request, if any. -/
def ApiOutcome.sent : ApiOutcome → Option String
  | .reply _ _ p => p
  | .fault _ => none

/-- `chatbot_api` (lines 236-260). -/
def chatbot_api (db : DB) (sess : Option LoggedIn) (session_id : Option Nat)
    (message : Option String) (now : Nat) (gem : String → Remote) : ApiOutcome :=
  match sess with
  | none => .reply db "Please login first!" none
  | some _li =>
    match session_id.bind (findSession db) with
    | none => .reply db "Chat session not found!" none
    | some cs =>
      match message with
      | none => .fault db
      | some msg =>
        let prompt := buildPrompt (chatsAsc db cs.id) msg
        let bot_reply := query_gemini_api (gem prompt)
        let chat_msg : Chat :=
          { id := nextChatId db, session_id := cs.id, question := msg,
            answer := bot_reply, timestamp := now }
        .reply { db with chats := db.chats ++ [chat_msg] } bot_reply (some prompt)

/-- Response of `delete_chat`: HTTP status and JSON body fields. -/
structure DeleteChatResp where
  db : DB
  status : Nat
  body : String
  msg : Option String
deriving Repr, DecidableEq

/-- Cascade of deleting one `ChatSession` (line 43): its chats go with it. -/
def removeSessionCascade (db : DB) (sid : Nat) : DB :=
  { db with sessions := db.sessions.filter (fun s => s.id != sid),
            chats := db.chats.filter (fun c => c.session_id != sid) }

/-- `delete_chat` (lines 262-272). -/
def delete_chat (db : DB) (sess : Option LoggedIn) (session_id : Nat) : DeleteChatResp :=
  match sess with
  | none => { db := db, status := 403, body := "error", msg := some "Unauthorized" }
  | some li =>
    match findSession db session_id with
    | some cs =>
      if cs.user_id == li.user_id then
        { db := removeSessionCascade db session_id, status := 200, body := "success",
          msg := none }
      else
        { db := db, status := 404, body := "error", msg := some "Chat not found" }
    | none =>
      { db := db, status := 404, body := "error", msg := some "Chat not found" }

/-- Spec §4.2 wording of the prompt: each prior pair as a `User:` line then
a `Bot:` line, oldest first, then the new user message and the fixed
trailing `Bot:` marker. -/
def promptSpec : List Chat → String → String
  | [], msg => "User: " ++ msg ++ "\nBot:"
  | c :: rest, msg =>
      "User: " ++ c.question ++ "\nBot: " ++ c.answer ++ "\n" ++ promptSpec rest msg

/-! ### Concrete rows and stores used to evaluate the handlers -/

/-- A regular (non-admin, non-blocked, non-banned) user. -/
def aliceU : User :=
  { id := 1, name := "Alice", email := "a@x.com", password := "pw1",
    is_blocked := false, is_banned := false, is_admin := false }

/-- A banned user. -/
def bannedU : User :=
  { id := 2, name := "Bob", email := "b@x.com", password := "pw2",
    is_blocked := false, is_banned := true, is_admin := false }

/-- Auth cookie of a logged-in Alice. -/
def liA : LoggedIn := { user_id := 1, user := "Alice" }

/-- A remote model that always answers "fine". -/
def gemOk : String → Remote := fun _ => Except.ok "fine"

/-- A fresh chat session owned by Alice. -/
def sess10 : ChatSession := { id := 10, user_id := 1, summary := "New Chat", timestamp := 0 }

/-- A chat session owned by user 2. -/
def sess5of2 : ChatSession := { id := 5, user_id := 2, summary := "New Chat", timestamp := 0 }

/-- One stored turn in session 10. -/
def chat1 : Chat :=
  { id := 1, session_id := 10, question := "Hi", answer := "Hello!", timestamp := 1 }

/-- Store with just Alice. -/
def dbA : DB := { users := [aliceU], sessions := [], chats := [] }

/-- Store with just the banned Bob. -/
def dbB : DB := { users := [bannedU], sessions := [], chats := [] }

/-- Store where session 5 belongs to user 2, and Alice (user 1) is present. -/
def dbAB : DB := { users := [aliceU, bannedU], sessions := [sess5of2], chats := [] }

/-- Store with Alice and her fresh session 10. -/
def dbS : DB := { users := [aliceU], sessions := [sess10], chats := [] }

/-- Store with Alice, session 10 and one stored turn. -/
def dbSC : DB := { users := [aliceU], sessions := [sess10], chats := [chat1] }

/-- State after a first turn "hello" sent through the JSON API flow. -/
def dbS1 : DB := (chatbot_api dbS (some liA) (some 10) (some "hello") 1 gemOk).db

/-- State after a second turn "goodbye" sent through the HTML form flow. -/
def dbS2 : DB := (chatbot dbS1 (some liA) Method.post (some 10) (some "goodbye") 2 gemOk).db

/-! ### Helper lemmas -/

theorem toggleBlocked_id (uid : Nat) (v : User) : (toggleBlocked uid v).id = v.id := by
  unfold toggleBlocked
  split <;> rfl

theorem toggleBlocked_invol (uid : Nat) (v : User) :
    toggleBlocked uid (toggleBlocked uid v) = v := by
  cases v with
  | mk i n e p bl bn ad =>
    by_cases h : (i == uid) = true <;> simp [toggleBlocked, h]

theorem setBanned_id (uid : Nat) (v : User) : (setBanned uid v).id = v.id := by
  unfold setBanned
  split <;> rfl

theorem find?_map_id_pres (f : User → User) (hf : ∀ v, (f v).id = v.id)
    (uid : Nat) (l : List User) :
    (l.map f).find? (fun u => u.id == uid) = (l.find? (fun u => u.id == uid)).map f := by
  have hcomp : ((fun u : User => u.id == uid) ∘ f) = fun u : User => u.id == uid := by
    funext v
    simp [Function.comp, hf]
  rw [List.find?_map f l, hcomp]

theorem foldl_prompt_eq (l : List Chat) (msg : String) (acc : String) :
    l.foldl (fun a c => a ++ ("User: " ++ c.question ++ "\nBot: " ++ c.answer ++ "\n")) acc
      ++ ("User: " ++ msg ++ "\nBot:") = acc ++ promptSpec l msg := by
  induction l generalizing acc with
  | nil => simp [promptSpec]
  | cons c rest ih =>
    simp only [List.foldl_cons, promptSpec]
    rw [ih]
    simp [String.append_assoc]

theorem buildPrompt_eq_promptSpec (l : List Chat) (msg : String) :
    buildPrompt l msg = promptSpec l msg := by
  have h := foldl_prompt_eq l msg ""
  simpa [buildPrompt, String.empty_append] using h

theorem findSession_id (db : DB) (sid : Nat) (cs : ChatSession)
    (h : findSession db sid = some cs) : cs.id = sid := by
  have hs' : List.find? (fun s : ChatSession => s.id == sid) db.sessions = some cs := by
    simpa [findSession] using h
  have h2 := List.find?_some hs'
  simpa using h2

theorem findUser_id (db : DB) (uid : Nat) (u : User)
    (h : findUser db uid = some u) : u.id = uid := by
  have hu' : List.find? (fun v : User => v.id == uid) db.users = some u := by
    simpa [findUser] using h
  have h2 := List.find?_some hu'
  simpa using h2

theorem chatbotStep_gem_ok (db : DB) (cs : ChatSession) (method : Method)
    (msg : Option String) (now : Nat) (gem : String → Remote) :
    chatbotStep db cs method msg now gem
      = chatbotStep db cs method msg now (fun p => Except.ok (query_gemini_api (gem p))) := by
  cases method with
  | get => rfl
  | post =>
    cases msg with
    | none => rfl
    | some m => rfl

/-! ### Claim theorems -/

/-- C3: for every stored user row with the banned flag set, `signin` never
succeeds: whatever password is submitted, the auth session is left unchanged
and the request redirects to the home view with the banned flash — the
banned rejection fires regardless of the blocked flag and before the
password comparison. -/
theorem signin_banned_rejected (db : DB) (sess : Option LoggedIn) (e pw : String) (u : User)
    (hfind : findUserByEmail db e = some u) (hban : u.is_banned = true) :
    signin db sess (some e) (some pw) =
      { sess := sess, flash := some "This email is banned. Contact admin.",
        redirect := Redirect.home } := by
  simp [signin, hfind, hban]

/-- Witness for C3: the banned user Bob is rejected even with his correct
password. -/
theorem signin_banned_rejected_witness :
    signin dbB none (some "b@x.com") (some "pw2") =
      { sess := none, flash := some "This email is banned. Contact admin.",
        redirect := Redirect.home } :=
  signin_banned_rejected dbB none "b@x.com" "pw2" bannedU rfl rfl

/-- C6: the gateway returns the raw model text on success and the literal
string "Error: <exception message>" when the remote call raises, and both
chat handlers treat a failed remote call exactly like a normal answer equal
to that error string: each handler behaves identically to itself run
against a provider that successfully returns `query_gemini_api` of the
original outcome (no retry, no distinct error path). -/
theorem gateway_error_string_as_answer :
    (∀ t, query_gemini_api (Except.ok t) = t)
    ∧ (∀ e, query_gemini_api (Except.error e) = "Error: " ++ e)
    ∧ (∀ db sess method sid msg now gem,
        chatbot db sess method sid msg now gem
          = chatbot db sess method sid msg now (fun p => Except.ok (query_gemini_api (gem p))))
    ∧ (∀ db sess sid msg now gem,
        chatbot_api db sess sid msg now gem
          = chatbot_api db sess sid msg now (fun p => Except.ok (query_gemini_api (gem p)))) := by
  refine ⟨fun t => rfl, fun e => rfl, ?_, ?_⟩
  · intro db sess method sid msg now gem
    cases sess with
    | none => rfl
    | some li =>
      cases hu : findUser db li.user_id with
      | none => simp [chatbot, hu]
      | some user =>
        cases sid with
        | none =>
          simp only [chatbot, hu]
          exact chatbotStep_gem_ok
            { db with sessions := db.sessions ++
                [{ id := nextSessionId db, user_id := user.id, summary := "New Chat",
                   timestamp := now }] }
            { id := nextSessionId db, user_id := user.id, summary := "New Chat",
              timestamp := now } method msg now gem
        | some s =>
          cases hs : findSession db s with
          | none => simp [chatbot, hu, hs]
          | some cs =>
            simp only [chatbot, hu, hs]
            exact chatbotStep_gem_ok db cs method msg now gem
  · intro db sess sid msg now gem
    cases sess with
    | none => rfl
    | some li =>
      cases hb : sid.bind (findSession db) with
      | none => simp [chatbot_api, hb]
      | some cs =>
        cases msg with
        | none => simp [chatbot_api, hb]
        | some m => simp [chatbot_api, hb, query_gemini_api]

/-- C5: the prompt sent to the gateway on a chat turn.  `buildPrompt` (the
source's accumulation loop) coincides with `promptSpec` (the spec's wording:
each prior pair as a `User:` line then a `Bot:` line, then the new message
and the trailing `Bot:` marker); the prior turns fed to it, `chatsAsc`, are
sorted oldest-first by timestamp and are exactly the session's chats; and
both handlers record exactly that prompt as the one sent. -/
theorem prompt_replays_history :
    (∀ prev msg, buildPrompt prev msg = promptSpec prev msg)
    ∧ (∀ db sid, List.Sorted tsLe (chatsAsc db sid)
        ∧ List.Perm (chatsAsc db sid) (db.chats.filter (fun c => c.session_id == sid)))
    ∧ (∀ db li sid msg now gem u cs,
        findUser db li.user_id = some u →
        findSession db sid = some cs →
        (chatbot db (some li) Method.post (some sid) (some msg) now gem).sent
          = some (promptSpec (chatsAsc db sid) msg))
    ∧ (∀ db li sid msg now gem cs,
        findSession db sid = some cs →
        (chatbot_api db (some li) (some sid) (some msg) now gem).sent
          = some (promptSpec (chatsAsc db sid) msg))
    ∧ (∀ db li msg now gem u,
        findUser db li.user_id = some u →
        (chatbot db (some li) Method.post none (some msg) now gem).sent
          = some (promptSpec (chatsAsc db (nextSessionId db)) msg)) := by
  refine ⟨buildPrompt_eq_promptSpec, ?_, ?_, ?_, ?_⟩
  · intro db sid
    unfold chatsAsc
    exact ⟨List.sorted_insertionSort tsLe _, List.perm_insertionSort tsLe _⟩
  · intro db li sid msg now gem u cs hu hs
    have hsid : cs.id = sid := findSession_id db sid cs hs
    simp only [chatbot, hu, hs]
    simp [chatbotStep, ChatbotOutcome.sent, buildPrompt_eq_promptSpec, hsid]
  · intro db li sid msg now gem cs hs
    have hsid : cs.id = sid := findSession_id db sid cs hs
    simp only [chatbot_api, Option.some_bind, hs]
    simp [ApiOutcome.sent, buildPrompt_eq_promptSpec, hsid]
  · intro db li msg now gem u hu
    simp only [chatbot, hu]
    simp [chatbotStep, ChatbotOutcome.sent, buildPrompt_eq_promptSpec, chatsAsc]

/-- Witness for C5: a turn in a session holding one stored pair. -/
theorem prompt_replays_history_witness :
    (chatbot dbSC (some liA) Method.post (some 10) (some "How are you") 2 gemOk).sent
      = some (promptSpec (chatsAsc dbSC 10) "How are you") :=
  prompt_replays_history.2.2.1 dbSC liA 10 "How are you" 2 gemOk aliceU sess10 rfl rfl

/-- C8: a signup whose email exactly equals a stored email (a case-sensitive
string comparison) leaves the whole store unchanged and flashes an error
message (the duplicate-email one, or — when some field is empty — the
missing-field one); no row is inserted. -/
theorem signup_duplicate_email_rejected (db : DB) (nm pw : Option String) (e : String)
    (u : User) (hfind : findUserByEmail db e = some u) :
    (signup db nm (some e) pw).db = db
    ∧ ((signup db nm (some e) pw).flash = "All fields are required!"
        ∨ (signup db nm (some e) pw).flash = "Email already registered!") := by
  unfold signup
  by_cases h : (falsy nm || falsy (some e) || falsy pw) = true
  · simp [h]
  · simp [h, hfind]

/-- Witness for C8: re-registering Alice's email changes nothing. -/
theorem signup_duplicate_email_rejected_witness :
    (signup dbA (some "Alice2") (some "a@x.com") (some "pw9")).db = dbA
    ∧ ((signup dbA (some "Alice2") (some "a@x.com") (some "pw9")).flash
          = "All fields are required!"
        ∨ (signup dbA (some "Alice2") (some "a@x.com") (some "pw9")).flash
          = "Email already registered!") :=
  signup_duplicate_email_rejected dbA (some "Alice2") (some "pw9") "a@x.com" aliceU rfl

/-- C9: on an unknown chat-session id, the JSON API answers with a normal
reply string saying the session was not found (store untouched, no gateway
call), while the page flow dereferences the failed lookup and raises — an
unrecovered fault. -/
theorem unknown_session_handling (db : DB) (li : LoggedIn) (sid : Nat)
    (msg : Option String) (now : Nat) (gem : String → Remote) (u : User)
    (hu : findUser db li.user_id = some u)
    (hs : findSession db sid = none) :
    chatbot_api db (some li) (some sid) msg now gem
      = ApiOutcome.reply db "Chat session not found!" none
    ∧ chatbot db (some li) Method.get (some sid) msg now gem = ChatbotOutcome.fault db := by
  constructor
  · simp [chatbot_api, hs]
  · simp [chatbot, hu, hs]

/-- Witness for C9: session 99 does not exist in Alice's store. -/
theorem unknown_session_handling_witness :
    chatbot_api dbA (some liA) (some 99) (some "hi") 0 gemOk
      = ApiOutcome.reply dbA "Chat session not found!" none
    ∧ chatbot dbA (some liA) Method.get (some 99) (some "hi") 0 gemOk
      = ChatbotOutcome.fault dbA :=
  unknown_session_handling dbA liA 99 (some "hi") 0 gemOk aliceU rfl rfl

/-- C10: `block_user` on an existing user id rewrites the user table by
`toggleBlocked`, which flips only the blocked flag of the matching row
(record update of that single field); every other user row is kept as is,
the target row keeps all other fields, and applying the operation twice
restores the store exactly. -/
theorem block_user_toggle_involutive (db : DB) (s1 s2 : Option LoggedIn) (uid : Nat) (u : User)
    (hfind : findUser db uid = some u) :
    (block_user db s1 uid).db.users = db.users.map (toggleBlocked uid)
    ∧ findUser (block_user db s1 uid).db uid = some { u with is_blocked := !u.is_blocked }
    ∧ (∀ v ∈ db.users, v.id ≠ uid → v ∈ (block_user db s1 uid).db.users)
    ∧ (block_user (block_user db s1 uid).db s2 uid).db = db := by
  have hbeq : (u.id == uid) = true := by
    simpa using findUser_id db uid u hfind
  have hdb1 : (block_user db s1 uid).db
      = { db with users := db.users.map (toggleBlocked uid) } := by
    simp [block_user, hfind]
  have hfind2 : findUser { db with users := db.users.map (toggleBlocked uid) } uid
      = some (toggleBlocked uid u) := by
    show List.find? (fun v => v.id == uid) (db.users.map (toggleBlocked uid))
        = some (toggleBlocked uid u)
    rw [find?_map_id_pres (toggleBlocked uid) (toggleBlocked_id uid) uid]
    have hf : List.find? (fun v : User => v.id == uid) db.users = some u := by
      simpa [findUser] using hfind
    rw [hf]
    rfl
  have key : (db.users.map (toggleBlocked uid)).map (toggleBlocked uid) = db.users := by
    rw [List.map_map]
    have hcomp : (toggleBlocked uid ∘ toggleBlocked uid) = id :=
      funext fun v => toggleBlocked_invol uid v
    rw [hcomp, List.map_id]
  refine ⟨by rw [hdb1], ?_, ?_, ?_⟩
  · rw [hdb1, hfind2]
    simp [toggleBlocked, hbeq]
  · intro v hv hne
    have hb : (v.id == uid) = false := by
      rw [beq_eq_false_iff_ne]
      exact hne
    have hfix : toggleBlocked uid v = v := by
      simp [toggleBlocked, hb]
    rw [hdb1]
    have hmem := List.mem_map_of_mem (toggleBlocked uid) hv
    rw [hfix] at hmem
    exact hmem
  · rw [hdb1]
    have h2 : (block_user { db with users := db.users.map (toggleBlocked uid) } s2 uid).db
        = { db with users := (db.users.map (toggleBlocked uid)).map (toggleBlocked uid) } := by
      simp [block_user, hfind2]
    rw [h2, key]

/-- Witness for C10: blocking Alice twice restores the store. -/
theorem block_user_toggle_involutive_witness :
    (block_user dbA none 1).db.users = dbA.users.map (toggleBlocked 1)
    ∧ findUser (block_user dbA none 1).db 1 = some { aliceU with is_blocked := !aliceU.is_blocked }
    ∧ (∀ v ∈ dbA.users, v.id ≠ 1 → v ∈ (block_user dbA none 1).db.users)
    ∧ (block_user (block_user dbA none 1).db none 1).db = dbA :=
  block_user_toggle_involutive dbA none none 1 aliceU rfl

/-- C7: `delete_user` on an existing user id first sets the banned flag on
the row (the transient state inside the single commit) and then performs the
cascade removal: afterwards no user row with that id, no session owned by
that user, and no chat belonging to any of that user's sessions remains. -/
theorem delete_user_cascade_complete (db : DB) (sess : Option LoggedIn) (uid : Nat) (u : User)
    (hfind : findUser db uid = some u) :
    (delete_user db sess uid).db = removeUserCascade (banUser db uid) uid
    ∧ findUser (banUser db uid) uid = some { u with is_banned := true }
    ∧ (∀ v ∈ (delete_user db sess uid).db.users, v.id ≠ uid)
    ∧ (∀ s ∈ (delete_user db sess uid).db.sessions, s.user_id ≠ uid)
    ∧ (∀ c ∈ (delete_user db sess uid).db.chats, ∀ s ∈ db.sessions,
        s.user_id = uid → c.session_id ≠ s.id) := by
  have hbeq : (u.id == uid) = true := by
    simpa using findUser_id db uid u hfind
  have hdb : (delete_user db sess uid).db = removeUserCascade (banUser db uid) uid := by
    simp [delete_user, hfind]
  have hbansess : (banUser db uid).sessions = db.sessions := rfl
  have hbanch : (banUser db uid).chats = db.chats := rfl
  refine ⟨hdb, ?_, ?_, ?_, ?_⟩
  · show List.find? (fun v => v.id == uid) (db.users.map (setBanned uid))
        = some { u with is_banned := true }
    rw [find?_map_id_pres (setBanned uid) (setBanned_id uid) uid]
    have hf : List.find? (fun v : User => v.id == uid) db.users = some u := by
      simpa [findUser] using hfind
    rw [hf]
    simp [setBanned, hbeq]
  · intro v hv
    rw [hdb] at hv
    have hv2 : v ∈ (banUser db uid).users ∧ (v.id != uid) = true := by
      simpa [removeUserCascade, List.mem_filter] using hv
    simpa using hv2.2
  · intro s hs
    rw [hdb] at hs
    have hs2 : s ∈ db.sessions ∧ (s.user_id != uid) = true := by
      simpa [removeUserCascade, hbansess, List.mem_filter] using hs
    simpa using hs2.2
  · intro c hc s hs hsu heq
    rw [hdb] at hc
    have hc2 : c ∈ db.chats
        ∧ (!((ownedSessionIds (banUser db uid) uid).contains c.session_id)) = true := by
      simpa [removeUserCascade, hbanch, List.mem_filter] using hc
    have hnotin : ((ownedSessionIds (banUser db uid) uid).contains c.session_id) = false := by
      simpa using hc2.2
    have hsid : s.id ∈ ownedSessionIds (banUser db uid) uid := by
      simp only [ownedSessionIds, hbansess, List.mem_map]
      refine ⟨s, ?_, rfl⟩
      rw [List.mem_filter]
      exact ⟨hs, by simpa using hsu⟩
    have hin : c.session_id ∈ ownedSessionIds (banUser db uid) uid := heq ▸ hsid
    have hcont : ((ownedSessionIds (banUser db uid) uid).contains c.session_id) = true := by
      simpa using hin
    rw [hcont] at hnotin
    exact Bool.noConfusion hnotin

/-- Witness for C7: deleting Alice removes her session 10 and its chat. -/
theorem delete_user_cascade_complete_witness :
    (delete_user dbSC none 1).db = removeUserCascade (banUser dbSC 1) 1
    ∧ findUser (banUser dbSC 1) 1 = some { aliceU with is_banned := true }
    ∧ (∀ v ∈ (delete_user dbSC none 1).db.users, v.id ≠ 1)
    ∧ (∀ s ∈ (delete_user dbSC none 1).db.sessions, s.user_id ≠ 1)
    ∧ (∀ c ∈ (delete_user dbSC none 1).db.chats, ∀ s ∈ dbSC.sessions,
        s.user_id = 1 → c.session_id ≠ s.id) :=
  delete_user_cascade_complete dbSC none 1 aliceU rfl

/-- Counterexample for C1: with no user id in the auth session (`none`),
`block_user` still performs the block on Alice and redirects to the admin
dashboard, not to the home view — the claimed per-request authorization
re-check does not exist on this route. -/
theorem admin_mutation_without_auth_cex :
    block_user dbA none 1
      = { db := { users := [{ aliceU with is_blocked := true }], sessions := [], chats := [] },
          flash := some "Alice has been blocked!", redirect := Redirect.admin_dashboard }
    ∧ (block_user dbA none 1).db ≠ dbA
    ∧ (block_user dbA none 1).redirect ≠ Redirect.home := by
  refine ⟨by decide, by decide, by decide⟩

/-- C1 (amended): only the `/admin` dashboard route re-checks, per request,
that a user id is in the session and that the row has the admin flag,
redirecting home with "Access denied!" otherwise; `block_user` and
`delete_user` perform no authorization check at all — their outcome is
independent of the auth session and they always redirect to the admin
dashboard. -/
theorem admin_auth_checks_amended :
    (∀ db, admin_dashboard db none = DashOutcome.redirectHome "Access denied!")
    ∧ (∀ db li, findUser db li.user_id = none →
        admin_dashboard db (some li) = DashOutcome.redirectHome "Access denied!")
    ∧ (∀ db li u, findUser db li.user_id = some u → u.is_admin = false →
        admin_dashboard db (some li) = DashOutcome.redirectHome "Access denied!")
    ∧ (∀ db s1 s2 uid, block_user db s1 uid = block_user db s2 uid)
    ∧ (∀ db s1 s2 uid, delete_user db s1 uid = delete_user db s2 uid)
    ∧ (∀ db s uid, (block_user db s uid).redirect = Redirect.admin_dashboard)
    ∧ (∀ db s uid, (delete_user db s uid).redirect = Redirect.admin_dashboard) := by
  refine ⟨fun db => rfl, ?_, ?_, fun db s1 s2 uid => rfl, fun db s1 s2 uid => rfl, ?_, ?_⟩
  · intro db li h
    simp [admin_dashboard, h]
  · intro db li u h ha
    simp [admin_dashboard, h, ha]
  · intro db s uid
    unfold block_user
    cases findUser db uid <;> rfl
  · intro db s uid
    unfold delete_user
    cases findUser db uid <;> rfl

/-- Witness for C1 (amended): the non-admin Alice is denied the dashboard. -/
theorem admin_auth_checks_amended_witness :
    admin_dashboard dbA (some liA) = DashOutcome.redirectHome "Access denied!" :=
  admin_auth_checks_amended.2.2.1 dbA liA aliceU rfl rfl

/-- Counterexample for C2: session 5 exists and belongs to user 2, the
logged-in user is Alice (id 1), yet the response status is 404, not the 403
the claim requires for a foreign session. -/
theorem delete_chat_wrong_owner_status_cex :
    findSession dbAB 5 = some sess5of2
    ∧ sess5of2.user_id ≠ liA.user_id
    ∧ (delete_chat dbAB (some liA) 5).status = 404
    ∧ (delete_chat dbAB (some liA) 5).status ≠ 403 := by
  refine ⟨rfl, by decide, rfl, by decide⟩

/-- C2 (amended): `delete_chat` returns 403 only when no user is logged in;
when a user is logged in it returns 404 both when the session id does not
exist and when the session belongs to a different user, leaving the store
unchanged; deletion with status 200 happens exactly when the session exists
and its `user_id` equals the logged-in user's id, and then the session and
its chats are removed. -/
theorem delete_chat_statuses_amended (db : DB) (li : LoggedIn) (sid : Nat) :
    delete_chat db none sid
      = { db := db, status := 403, body := "error", msg := some "Unauthorized" }
    ∧ (findSession db sid = none →
        delete_chat db (some li) sid
          = { db := db, status := 404, body := "error", msg := some "Chat not found" })
    ∧ (∀ cs, findSession db sid = some cs → cs.user_id ≠ li.user_id →
        delete_chat db (some li) sid
          = { db := db, status := 404, body := "error", msg := some "Chat not found" })
    ∧ (∀ cs, findSession db sid = some cs → cs.user_id = li.user_id →
        delete_chat db (some li) sid
          = { db := removeSessionCascade db sid, status := 200, body := "success",
              msg := none }) := by
  refine ⟨rfl, ?_, ?_, ?_⟩
  · intro h
    simp [delete_chat, h]
  · intro cs h hne
    have hb : (cs.user_id == li.user_id) = false := by
      rw [beq_eq_false_iff_ne]
      exact hne
    simp [delete_chat, h, hb]
  · intro cs h he
    simp [delete_chat, h, he]

/-- Witness for C2 (amended): Alice deleting the foreign session 5 gets 404. -/
theorem delete_chat_statuses_amended_witness :
    delete_chat dbAB (some liA) 5
      = { db := dbAB, status := 404, body := "error", msg := some "Chat not found" } :=
  (delete_chat_statuses_amended dbAB liA 5).2.2.1 sess5of2 rfl (by decide)

set_option maxRecDepth 10000 in
/-- Counterexample for C4: session 10 receives its first user message
"hello" through the JSON API flow (which never touches the summary) and a
second message "goodbye" through the HTML form flow; the summary ends up
"goodbye", the first 50 characters of the second message, not of the first
user message "hello" of the session. -/
theorem summary_mixed_flow_cex :
    (chatsAsc dbS2 10).map (fun c => c.question) = ["hello", "goodbye"]
    ∧ (findSession dbS2 10).map (fun s => s.summary) = some "goodbye"
    ∧ ("goodbye" : String) ≠ String.take "hello" 50 := by
  refine ⟨rfl, rfl, by decide⟩

/-- C4 (amended): the summary is written only by the HTML form flow: a form
POST whose session summary still equals the sentinel "New Chat" sets it to
the first 50 characters of that turn's message, a form POST on a session
whose summary already differs from the sentinel leaves every summary
unchanged, and the JSON API flow never modifies any session row at all. -/
theorem summary_set_only_by_form_flow :
    (∀ db li sid msg now gem u cs,
        findUser db li.user_id = some u → findSession db sid = some cs →
        cs.summary = "New Chat" →
        (chatbot db (some li) Method.post (some sid) (some msg) now gem).db.sessions
          = db.sessions.map
              (fun s => if s.id == cs.id then { s with summary := msg.take 50 } else s))
    ∧ (∀ db li sid msg now gem u cs,
        findUser db li.user_id = some u → findSession db sid = some cs →
        cs.summary ≠ "New Chat" →
        (chatbot db (some li) Method.post (some sid) (some msg) now gem).db.sessions
          = db.sessions)
    ∧ (∀ db sess sid msg now gem,
        (chatbot_api db sess sid msg now gem).db.sessions = db.sessions) := by
  refine ⟨?_, ?_, ?_⟩
  · intro db li sid msg now gem u cs hu hs hsum
    have hb : (cs.summary == "New Chat") = true := by
      rw [hsum]
      rfl
    simp only [chatbot, hu, hs]
    simp [chatbotStep, ChatbotOutcome.db, hb]
  · intro db li sid msg now gem u cs hu hs hsum
    have hb : (cs.summary == "New Chat") = false := by
      rw [beq_eq_false_iff_ne]
      exact hsum
    simp only [chatbot, hu, hs]
    simp [chatbotStep, ChatbotOutcome.db, hb]
  · intro db sess sid msg now gem
    cases sess with
    | none => rfl
    | some li =>
      cases hb : sid.bind (findSession db) with
      | none => simp [chatbot_api, hb, ApiOutcome.db]
      | some cs =>
        cases msg with
        | none => simp [chatbot_api, hb, ApiOutcome.db]
        | some m => simp [chatbot_api, hb, ApiOutcome.db]

/-- Witness for C4 (amended): a form POST "hey" on the fresh session 10
sets its summary to the first 50 characters of "hey". -/
theorem summary_set_only_by_form_flow_witness :
    (chatbot dbS (some liA) Method.post (some 10) (some "hey") 1 gemOk).db.sessions
      = dbS.sessions.map
          (fun s => if s.id == sess10.id then { s with summary := String.take "hey" 50 } else s) :=
  summary_set_only_by_form_flow.1 dbS liA 10 "hey" 1 gemOk aliceU sess10 rfl rfl rfl

end Barplexity
